import Mathlib

/-!
Shallow embedding of the caddy-mirror handler (src/mirror.go).

The filesystem is modelled as an association list from path strings to
nodes (kind and permission bits); file contents are not tracked, only
existence, kind and permissions, which is what the lifecycle logic of
`IncomingFile` inspects.  Operating-system calls whose success the code
branches on (fsync, close, mkdir, stat, chmod, create-temp) are driven by
explicit boolean environment records, so every branch of the Go code is
reachable in the model.  `os.Rename` and `os.Remove` are deterministic on
the model filesystem: rename fails exactly when the source path is absent,
remove fails exactly when the target path is absent, matching POSIX ENOENT
behaviour relied on by the Go standard library.
-/

namespace CaddyMirror

/-- Kind of a filesystem node, as classified by the Lstat mode checks in
mirror.go (`IsDir`, `IsRegular`, everything else). -/
inductive FKind where
  | regular
  | dir
  | other
deriving DecidableEq

/-- A filesystem node: its kind and its permission bits (`Mode().Perm()`). -/
structure FNode where
  kind : FKind
  perm : Nat
deriving DecidableEq

/-- Model filesystem: association list from path to node. -/
abbrev FS := List (String × FNode)

/-- Lstat-style lookup of a path in the model filesystem. -/
def FS.lookup (fs : FS) (p : String) : Option FNode :=
  match fs with
  | [] => none
  | (q, n) :: rest => if q = p then some n else FS.lookup rest p

/-- Remove every entry at path `p` (helper for remove/rename/insert). -/
def FS.erase (fs : FS) (p : String) : FS :=
  fs.filter (fun e => e.1 ≠ p)

/-- Create or overwrite the node at path `p`. -/
def FS.insert (fs : FS) (p : String) (n : FNode) : FS :=
  (p, n) :: FS.erase fs p

/-- Model of `os.Rename src dst`: fails (returns `none`) exactly when the
source does not exist, otherwise moves the node onto `dst`, replacing any
previous node there. -/
def FS.rename (fs : FS) (src dst : String) : Option FS :=
  match FS.lookup fs src with
  | none => none
  | some n => some (FS.insert (FS.erase fs src) dst n)

/-- Errors observable from the modelled operations.  `joined a b` models
`errors.Join` of two non-nil errors. -/
inductive Err where
  | isDirE
  | notRegularE
  | alreadyAborted
  | alreadyCompleted
  | notExist
  | fileClosed
  | syncFailed
  | closeFailed
  | mkdirFailed
  | createTempFailed
  | statTempFailed
  | chmodFailed
  | joined (a b : Err)
deriving DecidableEq

/-- Model of `errors.Join` restricted to two operands: nil when both are
nil, the non-nil one when only one is, both kept otherwise. -/
def joinErr : Option Err → Option Err → Option Err
  | none, none => none
  | some a, none => some a
  | none, some b => some b
  | some a, some b => some (Err.joined a b)

/-- The `IncomingFile` struct of mirror.go: the temporary file's name, the
target path, and the four lifecycle booleans. -/
structure IncomingFile where
  tempName : String
  target : String
  completed : Bool := false
  done : Bool := false
  closed : Bool := false
  aborted : Bool := false
deriving DecidableEq

/-- Environment for `Complete`: whether `f.Sync()` and `f.File.Close()`
succeed when invoked on the still-open temporary file. -/
structure Env where
  syncOk : Bool := true
  closeOk : Bool := true
deriving DecidableEq

/-- Embeds `IncomingFile.Abort` (mirror.go lines 335-353): error if already
completed, no-op if already done; otherwise set `aborted`, close the file
(ErrClosed when it was closed before), remove the temporary file (ENOENT
when it is absent), set `done`, and return `errors.Join(removeErr,
closeErr)`. -/
def IncomingFile.Abort (f : IncomingFile) (fs : FS) : Option Err × IncomingFile × FS :=
  if f.completed then
    (some .alreadyCompleted, f, fs)
  else if f.done then
    (none, f, fs)
  else
    let f1 : IncomingFile := { f with aborted := true }
    let closeErr : Option Err := if f1.closed then some .fileClosed else none
    let f2 : IncomingFile := { f1 with closed := true }
    let removeErr : Option Err :=
      if (FS.lookup fs f2.tempName).isSome then none else some .notExist
    let fs2 : FS := FS.erase fs f2.tempName
    let f3 : IncomingFile := { f2 with done := true }
    (joinErr removeErr closeErr, f3, fs2)

/-- The rename step of `Complete` (mirror.go lines 327-332): rename the
temporary file onto the target (an error when the temporary file is
absent) and set `completed` on success. -/
def completeRename (f : IncomingFile) (fs : FS) : Option Err × IncomingFile × FS :=
  match FS.rename fs f.tempName f.target with
  | none => (some .notExist, f, fs)
  | some fs2 => (none, { f with completed := true }, fs2)

/-- Embeds `IncomingFile.Complete` (mirror.go lines 305-333): error if
aborted, no-op if `done`; if not yet closed, sync and close first and on
failure abort instead, joining the errors; otherwise rename the temporary
file onto the target and set `completed`. -/
def IncomingFile.Complete (f : IncomingFile) (fs : FS) (env : Env) : Option Err × IncomingFile × FS :=
  if f.aborted then
    (some .alreadyAborted, f, fs)
  else if f.done then
    (none, f, fs)
  else if !f.closed then
    let syncErr : Option Err := if env.syncOk then none else some .syncFailed
    let closeErr : Option Err := if env.closeOk then none else some .closeFailed
    let f1 : IncomingFile := { f with closed := true }
    if syncErr.isSome || closeErr.isSome then
      let ab := f1.Abort fs
      (joinErr (joinErr syncErr closeErr) ab.1, ab.2.1, ab.2.2)
    else
      completeRename f1 fs
  else
    completeRename f fs

/-- Embeds `IncomingFile.Close` (mirror.go lines 297-302): abort unless
completed, otherwise close the underlying file (ErrClosed if it was
already closed). -/
def IncomingFile.Close (f : IncomingFile) (fs : FS) : Option Err × IncomingFile × FS :=
  if !f.completed then
    f.Abort fs
  else
    let closeErr : Option Err := if f.closed then some .fileClosed else none
    (closeErr, { f with closed := true }, fs)

/-- Model of `filepath.Split`: the directory part up to and including the
final slash, and the base name after it. -/
def splitPath (p : String) : String × String :=
  let cs := p.toList
  let base := (cs.reverse.takeWhile (fun c => c ≠ Char.ofNat 47)).reverse
  let dir := cs.take (cs.length - base.length)
  (String.mk dir, String.mk base)

/-- Name of the temporary file `os.CreateTemp(dir, "._tmp_"+base)` creates
for a target path.  The random part of the real name is dropped: the model
name is the deterministic stem, still colocated with the target and
distinct from it. -/
def tempNameOf (p : String) : String :=
  (splitPath p).1 ++ "._tmp_" ++ (splitPath p).2

/-- Environment for `NewIncomingFile`: whether `os.MkdirAll`,
`os.CreateTemp`, `temp.Stat` and `temp.Chmod` succeed, and the permission
bits the freshly created temporary file starts with. -/
structure CreateEnv where
  mkdirOk : Bool := true
  createTempOk : Bool := true
  tempStatOk : Bool := true
  chmodOk : Bool := true
  tempPerm : Nat := 384
deriving DecidableEq

/-- Embeds `NewIncomingFile` (mirror.go lines 355-422): mkdir the parent,
lstat the target (directory or irregular targets are refused, absence is
fine), create the temporary file, and if a prior target existed, stat the
temporary file and chmod it to the target's permission bits when they
differ.  On stat/chmod failure the temporary file is closed (`temp.Close`)
before the error returns; the Go code performs no `os.Remove` there, so the
node stays in the filesystem. -/
def NewIncomingFile (path : String) (fs : FS) (env : CreateEnv) : Except Err IncomingFile × FS :=
  if !env.mkdirOk then
    (.error .mkdirFailed, fs)
  else
    let statRes := FS.lookup fs path
    match statRes with
    | some st =>
      if st.kind = .dir then
        (.error .isDirE, fs)
      else if st.kind ≠ .regular then
        (.error .notRegularE, fs)
      else if !env.createTempOk then
        (.error .createTempFailed, fs)
      else
        let tn := tempNameOf path
        let fs1 := FS.insert fs tn ⟨.regular, env.tempPerm⟩
        if !env.tempStatOk then
          (.error .statTempFailed, fs1)
        else if env.tempPerm ≠ st.perm then
          if !env.chmodOk then
            (.error .chmodFailed, fs1)
          else
            (.ok { tempName := tn, target := path }, FS.insert fs1 tn ⟨.regular, st.perm⟩)
        else
          (.ok { tempName := tn, target := path }, fs1)
    | none =>
      if !env.createTempOk then
        (.error .createTempFailed, fs)
      else
        let tn := tempNameOf path
        (.ok { tempName := tn, target := path }, FS.insert fs tn ⟨.regular, env.tempPerm⟩)

/-- Error classes an underlying `rww.file.Write` call can report:
`io.ErrShortWrite` (retried by the loop) or any other error (fatal). -/
inductive WErr where
  | shortWrite
  | fatal
deriving DecidableEq

/-- A stream of results of successive `rww.file.Write(data[written:])`
calls: call index to (bytes consumed, error). -/
abbrev WStream := Nat → Nat × Option WErr

/-- Outcome of the write loop of `responseWriterWrapper.Write` (mirror.go
lines 240-252): forwarded the buffer to the wrapped writer, returned early
with an error, or ran out of fuel (the loop does not terminate within the
given number of iterations). -/
inductive LoopOutcome where
  | forwarded (written : Nat)
  | errored (written : Nat) (e : WErr)
  | diverged
deriving DecidableEq

/-- Embeds the `for` loop of `responseWriterWrapper.Write`: call the file
write on `data[written:]`, add the consumed count, return early on an
error other than `io.ErrShortWrite`, forward once `written == len(data)`,
otherwise loop.  The consumed count is clamped to the slice length, since
a `Write` never reports more bytes than it was handed.  `fuel` bounds the
number of iterations modelled; `diverged` means the loop is still running
when it runs out. -/
def writeLoop (stream : WStream) (len : Nat) : Nat → Nat → Nat → LoopOutcome
  | _, _, 0 => .diverged
  | idx, written, fuel + 1 =>
    let r := stream idx
    let w2 := written + min r.1 (len - written)
    match r.2 with
    | some .fatal => .errored w2 .fatal
    | _ =>
      if w2 = len then .forwarded w2
      else writeLoop stream len (idx + 1) w2 fuel

/-- The `responseWriterWrapper` struct of mirror.go (contents relevant to
the mirroring logic: the wrapped real writer, config and logger are
external). -/
structure RWW where
  file : IncomingFile
  etagFile : Option IncomingFile := none
  bytesExpected : Int := 0
  bytesWritten : Int := 0
deriving DecidableEq

/-- Embeds the deferred function of `responseWriterWrapper.Write` (mirror.go
lines 218-239): add the written count, and when the expected byte count is
positive and exactly reached, `Complete` the primary file and, when that
succeeded and a sidecar exists, `Complete` the sidecar; errors are logged
only. -/
def finalizeCheck (rww : RWW) (fs : FS) (env : Env) (written : Nat) : RWW × FS :=
  let rww1 : RWW := { rww with bytesWritten := rww.bytesWritten + (written : Int) }
  if rww1.bytesExpected > 0 ∧ rww1.bytesWritten = rww1.bytesExpected then
    let pc := rww1.file.Complete fs env
    let rww2 : RWW := { rww1 with file := pc.2.1 }
    match pc.1 with
    | some _ => (rww2, pc.2.2)
    | none =>
      match rww2.etagFile with
      | none => (rww2, pc.2.2)
      | some ef =>
        let ec := ef.Complete pc.2.2 env
        ({ rww2 with etagFile := some ec.2.1 }, ec.2.2)
  else
    (rww1, fs)

/-- What a call to `responseWriterWrapper.Write` did: took the early path
(closed file or empty data) and only forwarded, mirrored and then
forwarded, returned a write error without forwarding, or the loop did not
finish within the modelled fuel. -/
inductive WriteResult where
  | forwardedOnly
  | mirroredAndForwarded (written : Nat)
  | writeError (written : Nat)
  | outOfFuel
deriving DecidableEq

/-- Embeds `responseWriterWrapper.Write` (mirror.go lines 212-253): pass
straight through when the mirror file is closed or the data is empty;
otherwise run the write loop, then (deferred, on every return path) run
the finalize check with the bytes the loop consumed.  The data reaches the
wrapped real writer only on the pass-through path and when the loop
consumed the whole buffer. -/
def RWW.Write (rww : RWW) (fs : FS) (env : Env) (len : Nat) (stream : WStream) (fuel : Nat) :
    WriteResult × RWW × FS :=
  if rww.file.closed || len = 0 then
    (.forwardedOnly, rww, fs)
  else
    match writeLoop stream len 0 0 fuel with
    | .diverged => (.outOfFuel, rww, fs)
    | .errored written _ =>
      let r := finalizeCheck rww fs env written
      (.writeError written, r.1, r.2)
    | .forwarded written =>
      let r := finalizeCheck rww fs env written
      (.mirroredAndForwarded written, r.1, r.2)

/-- The response header fields `WriteHeader` reads: the result of
`strconv.ParseInt` on Content-Length (`none` when parsing fails) and the
Etag header value. -/
structure Header where
  contentLength : Option Int := none
  etag : String := ""
deriving DecidableEq

/-- Embeds `responseWriterWrapper.WriteHeader` (mirror.go lines 255-284):
on status 200 record a parseable Content-Length as the expected byte count
and copy any Etag value into the sidecar temporary file (contents are not
tracked by the model); on any other status abort the primary file (the
error is logged only, and the sidecar is not touched).  The status code is
then forwarded unchanged to the wrapped writer; the third component is the
status code handed to it. -/
def RWW.WriteHeader (rww : RWW) (fs : FS) (statusCode : Nat) (hdr : Header) : RWW × FS × Nat :=
  if statusCode = 200 then
    let rww1 : RWW :=
      match hdr.contentLength with
      | some cl => { rww with bytesExpected := cl }
      | none => rww
    (rww1, fs, statusCode)
  else
    let ab := rww.file.Abort fs
    ({ rww with file := ab.2.1 }, ab.2.2, statusCode)

/-- Configuration of the Mirror handler (mirror.go lines 24-42): the root
template and the Etag sidecar suffix. -/
structure MirrorCfg where
  root : String := ""
  etagFileSuffix : String := ""
deriving DecidableEq

/-- Embeds `Mirror.validateMirrorTarget` (mirror.go lines 154-185): lstat
the path; absence is `(false, nil)`, a directory is an `ErrIsDir` path
error, an irregular node is a Forbidden `ErrNotRegular` error, a regular
file is `(true, nil)`.  Lstat itself fails in this model only with
not-exist. -/
def validateMirrorTarget (fs : FS) (filename : String) : Bool × Option Err :=
  match FS.lookup fs filename with
  | none => (false, none)
  | some st =>
    if st.kind = .dir then (false, some .isDirE)
    else if st.kind ≠ .regular then (false, some .notRegularE)
    else (true, none)

/-- Embeds `Mirror.locateMirrorFile` (mirror.go lines 187-195):
`SanitizedPathJoin` is external caddy code, passed in as `sanitize`; the
result has a trailing slash trimmed. -/
def locateMirrorFile (sanitize : String → String → String) (root urlp : String) : String :=
  let s := sanitize root urlp
  if s.endsWith "/" then s.dropRight 1 else s

/-- How `Mirror.ServeHTTP` disposes of a request: call the next handler
with the original undecorated writer, return an HTTP error with the given
status, or call the next handler with the wrapping writer installed. -/
inductive Decision where
  | nextWithOriginal
  | httpError (status : Nat)
  | nextWithMirror (rww : RWW)
deriving DecidableEq

/-- Embeds `Mirror.ServeHTTP` (mirror.go lines 60-148).  `replaceAll`
stands for the caddy placeholder replacer applied to the configured root,
`sanitize` for `caddyhttp.SanitizedPathJoin`; both are external
collaborators.  Non-GET requests and directory-style paths pass through
with the original writer and the filesystem untouched; a relative URL path
is a 400; an existing regular mirror file passes through undecorated; a
directory target passes through; an irregular target surfaces as a 500
(the Forbidden error from validateMirrorTarget is wrapped again by
`caddyhttp.Error(StatusInternalServerError, err)`, whose outer status
wins); a failed temp-file creation is a 500 (none of the modelled creation
errors is a permission error); otherwise the wrapper is installed, with
the Etag sidecar attached when a suffix is configured and its temp file
creation succeeded. -/
def ServeHTTP (mir : MirrorCfg) (sanitize : String → String → String)
    (replaceAll : String → String) (method urlPath : String)
    (fs : FS) (env envEtag : CreateEnv) : Decision × FS :=
  if method ≠ "GET" then
    (.nextWithOriginal, fs)
  else if !urlPath.startsWith "/" then
    (.httpError 400, fs)
  else if urlPath.endsWith "/" then
    (.nextWithOriginal, fs)
  else
    let root := replaceAll mir.root
    let filename := locateMirrorFile sanitize root urlPath
    match validateMirrorTarget fs filename with
    | (_, some .isDirE) => (.nextWithOriginal, fs)
    | (_, some _) => (.httpError 500, fs)
    | (true, none) => (.nextWithOriginal, fs)
    | (false, none) =>
      match NewIncomingFile filename fs env with
      | (.error _, fs1) => (.httpError 500, fs1)
      | (.ok file, fs1) =>
        if mir.etagFileSuffix ≠ "" then
          let etagFilename := filename ++ mir.etagFileSuffix
          match NewIncomingFile etagFilename fs1 envEtag with
          | (.error _, fs2) => (.nextWithMirror { file := file }, fs2)
          | (.ok ef, fs2) => (.nextWithMirror { file := file, etagFile := some ef }, fs2)
        else
          (.nextWithMirror { file := file }, fs1)

/-- Modelled from the spec: content-digest-mode.  No code under src
implements a content digest (src/mirror.go persists only Etag sidecars);
spec sections 2, 4.4, 6 and 8 describe a streaming digest, cryptographic
strength with fixed-size output, computed incrementally over the mirrored
body chunks and persisted when the file completes.  The model keeps the
streaming structure exactly (a fixed-size state folded over bytes) and
instantiates the compression step with a concrete mixing function; bytes
are naturals below 256 and the state is a natural below 2^64. -/
def digestStep (st : Nat) (b : Nat) : Nat :=
  (st * 131 + b) % (2 ^ 64)

/-- Modelled from the spec: the digest state a fresh response body starts
from (content-digest-mode). -/
def digestInit : Nat :=
  5381

/-- Modelled from the spec: feeding one body chunk through the streaming
digest state (content-digest-mode). -/
def digestUpdate (st : Nat) (chunk : List Nat) : Nat :=
  chunk.foldl digestStep st

/-- Modelled from the spec: the digest persisted once the file completes,
after every mirrored chunk has been streamed through the state in order
(content-digest-mode). -/
def streamingDigest (chunks : List (List Nat)) : Nat :=
  chunks.foldl digestUpdate digestInit

/-- Modelled from the spec: the digest computed independently, in one
pass, over the whole response body (content-digest-mode). -/
def digestOfBody (body : List Nat) : Nat :=
  digestUpdate digestInit body

/-! Helper lemmas about the model filesystem. -/

theorem FS.lookup_erase_ne (fs : FS) (p q : String) (h : p ≠ q) :
    FS.lookup (FS.erase fs q) p = FS.lookup fs p := by
  induction fs with
  | nil => rfl
  | cons e rest ih =>
    obtain ⟨r, n⟩ := e
    by_cases hq : r = q
    · have hrp : r ≠ p := by
        intro hh
        exact h (by rw [← hh, hq])
      have he : FS.erase ((r, n) :: rest) q = FS.erase rest q := by
        simp [FS.erase, List.filter_cons, hq]
      rw [he, ih]
      simp [FS.lookup, hrp]
    · have he : FS.erase ((r, n) :: rest) q = (r, n) :: FS.erase rest q := by
        simp [FS.erase, List.filter_cons, hq]
      rw [he]
      by_cases hp : r = p
      · simp [FS.lookup, hp]
      · simp [FS.lookup, hp, ih]

theorem FS.lookup_insert_self (fs : FS) (q : String) (n : FNode) :
    FS.lookup (FS.insert fs q n) q = some n := by
  simp [FS.insert, FS.lookup]

theorem FS.lookup_insert_ne (fs : FS) (p q : String) (n : FNode) (h : p ≠ q) :
    FS.lookup (FS.insert fs q n) p = FS.lookup fs p := by
  have hqp : q ≠ p := fun hh => h hh.symm
  show (if q = p then some n else FS.lookup (FS.erase fs q) p) = FS.lookup fs p
  rw [if_neg hqp]
  exact FS.lookup_erase_ne fs p q h

/-! Shared concrete fixtures used by several witnesses and
counterexamples. -/

/-- A freshly created primary incoming file for target /r/a.txt. -/
def fileA : IncomingFile :=
  { tempName := "/r/._tmp_a.txt", target := "/r/a.txt" }

/-- A freshly created Etag sidecar incoming file. -/
def etagA : IncomingFile :=
  { tempName := "/r/._tmp_a.txt.etag", target := "/r/a.txt.etag" }

/-- Filesystem holding both temporary files and nothing else. -/
def fsBoth : FS :=
  [("/r/._tmp_a.txt", ⟨.regular, 384⟩), ("/r/._tmp_a.txt.etag", ⟨.regular, 384⟩)]

/-- Filesystem holding only the primary temporary file. -/
def fsOnlyTemp : FS :=
  [("/r/._tmp_a.txt", ⟨.regular, 384⟩)]

/-! Claim C3 -/

/-- C3: evaluation of the finalizers at the failing input.  `Abort` twice
is idempotent (the second call returns success), but `Complete` twice is
not: the first call succeeds and renames the temporary file away, and the
second call, because `Complete` never sets the `done` flag it tests,
re-runs `os.Rename` on the now-missing temporary file and returns its
ENOENT error instead of success. -/
theorem c3_complete_abort_twice :
    ((fileA.Complete fsOnlyTemp {}).1 = none ∧
      (fileA.Complete fsOnlyTemp {}).2.1.completed = true ∧
      ((fileA.Complete fsOnlyTemp {}).2.1.Complete (fileA.Complete fsOnlyTemp {}).2.2 {}).1 =
        some .notExist) ∧
    ((fileA.Abort fsOnlyTemp).1 = none ∧
      ((fileA.Abort fsOnlyTemp).2.1.Abort (fileA.Abort fsOnlyTemp).2.2).1 = none) := by
  decide

/-! Claim C9 -/

/-- C9: a request whose method is not GET is passed to the next handler
with the original, undecorated response writer, and the filesystem is
untouched: no path resolution, validation or temp-file creation happens. -/
theorem c9_non_get_passthrough (mir : MirrorCfg) (sanitize : String → String → String)
    (replaceAll : String → String) (method urlPath : String)
    (fs : FS) (env envEtag : CreateEnv) (h : method ≠ "GET") :
    ServeHTTP mir sanitize replaceAll method urlPath fs env envEtag = (.nextWithOriginal, fs) := by
  simp [ServeHTTP, h]

/-- C9 witness: a concrete POST request takes the pass-through path. -/
theorem c9_non_get_passthrough_witness :
    "POST" ≠ "GET" ∧
      ServeHTTP {} (fun a b => a ++ b) id "POST" "/a.txt" fsOnlyTemp {} {} =
        (.nextWithOriginal, fsOnlyTemp) :=
  ⟨by decide, c9_non_get_passthrough {} (fun a b => a ++ b) id "POST" "/a.txt"
    fsOnlyTemp {} {} (by decide)⟩

/-! Claim C10 -/

/-- C10: feeding the response body through the streaming digest chunk by
chunk, in order, yields the same digest as one independent pass over the
concatenated body bytes, for every chunking. -/
theorem c10_digest_agree (chunks : List (List Nat)) :
    streamingDigest chunks = digestOfBody chunks.flatten := by
  rw [streamingDigest, digestOfBody, digestUpdate, List.foldl_flatten]
  rfl

/-! Claim C5 -/

/-- C5 counterexample: a 206 Partial Content response (a 200-class status)
with a parseable Content-Length of 5 does not get its length recorded —
the expected byte count stays 0 — and the primary file is aborted, because
the code tests for status exactly 200, not for the 200 class. -/
theorem c5_counterexample :
    (RWW.WriteHeader { file := fileA, etagFile := some etagA } fsBoth 206
        { contentLength := some 5 }).1.bytesExpected = 0 ∧
      (RWW.WriteHeader { file := fileA, etagFile := some etagA } fsBoth 206
        { contentLength := some 5 }).1.file.aborted = true := by
  decide

/-- C5 (amended): for a header event with status exactly 200 and a
parseable declared length, the interceptor records that length as the
expected byte count, leaves the incoming file untouched (in particular not
aborted), leaves the filesystem untouched, and forwards status 200. -/
theorem c5_status200_records_length (rww : RWW) (fs : FS) (hdr : Header) (cl : Int)
    (h : hdr.contentLength = some cl) :
    RWW.WriteHeader rww fs 200 hdr = ({ rww with bytesExpected := cl }, fs, 200) := by
  simp [RWW.WriteHeader, h]

/-- C5 witness: a concrete 200 response with Content-Length 5 has its
length recorded and the file left open. -/
theorem c5_status200_records_length_witness :
    ({ contentLength := some 5 } : Header).contentLength = some 5 ∧
      RWW.WriteHeader { file := fileA, etagFile := some etagA } fsBoth 200
          { contentLength := some 5 } =
        ({ file := fileA, etagFile := some etagA, bytesExpected := 5 }, fsBoth, 200) :=
  ⟨rfl, c5_status200_records_length { file := fileA, etagFile := some etagA } fsBoth
    { contentLength := some 5 } 5 rfl⟩

/-! Claim C4 -/

/-- C4 counterexample: a 404 header event aborts the primary file but
leaves the Etag sidecar file untouched — the sidecar is not in the Aborted
state after the header event, contradicting the claim that both are. -/
theorem c4_counterexample :
    (RWW.WriteHeader { file := fileA, etagFile := some etagA } fsBoth 404 {}).1.file.aborted =
        true ∧
      (RWW.WriteHeader { file := fileA, etagFile := some etagA } fsBoth 404
          {}).1.etagFile = some etagA ∧
      etagA.aborted = false := by
  decide

/-- C4 (amended): for a header event whose status is not 200, the
interceptor immediately aborts the primary incoming file; the sidecar
incoming file is not touched by the header event (it is aborted later by
the deferred request-scope Close), and the header is forwarded unchanged
to the real writer. -/
theorem c4_nonsuccess_header_aborts_primary (rww : RWW) (fs : FS) (statusCode : Nat)
    (hdr : Header) (hs : statusCode ≠ 200)
    (hc : rww.file.completed = false) (hd : rww.file.done = false) :
    (RWW.WriteHeader rww fs statusCode hdr).1.file.aborted = true ∧
      (RWW.WriteHeader rww fs statusCode hdr).1.etagFile = rww.etagFile ∧
      (RWW.WriteHeader rww fs statusCode hdr).2.2 = statusCode := by
  simp [RWW.WriteHeader, hs, IncomingFile.Abort, hc, hd]

/-- C4 witness: a concrete 404 header event at a fresh wrapper. -/
theorem c4_nonsuccess_header_aborts_primary_witness :
    ((404 : Nat) ≠ 200 ∧ fileA.completed = false ∧ fileA.done = false) ∧
      (RWW.WriteHeader { file := fileA, etagFile := some etagA } fsBoth 404 {}).1.file.aborted =
          true ∧
        (RWW.WriteHeader { file := fileA, etagFile := some etagA } fsBoth 404
            {}).1.etagFile = some etagA ∧
        (RWW.WriteHeader { file := fileA, etagFile := some etagA } fsBoth 404 {}).2.2 = 404 :=
  ⟨by decide, c4_nonsuccess_header_aborts_primary { file := fileA, etagFile := some etagA }
    fsBoth 404 {} (by decide) rfl rfl⟩

/-! Claim C1 -/

/-- C1 counterexample: a body write event on an open mirror file whose
underlying file write fails with an error other than io.ErrShortWrite
returns that error without ever calling the real writer: the outcome is
`writeError`, not one of the two forwarding outcomes, so the data is not
forwarded regardless of mirroring outcome. -/
theorem c1_counterexample :
    (RWW.Write { file := fileA } fsOnlyTemp {} 1 (fun _ => (0, some .fatal)) 5).1 =
        .writeError 0 ∧
      (RWW.Write { file := fileA } fsOnlyTemp {} 1 (fun _ => (0, some .fatal)) 5).2.2 =
        fsOnlyTemp := by
  decide

/-- C1 (amended): on a body write event with an open mirror file and
non-empty data, the data is forwarded to the real writer exactly when the
mirror write loop consumes the whole buffer; when an underlying file write
returns an error other than io.ErrShortWrite, that error is propagated to
the caller and the data is not forwarded. -/
theorem c1_forwarding_requires_full_mirror (rww : RWW) (fs : FS) (env : Env) (len : Nat)
    (stream : WStream) (fuel : Nat) (hclosed : rww.file.closed = false) (hlen : len ≠ 0) :
    (∀ w, writeLoop stream len 0 0 fuel = .forwarded w →
        (RWW.Write rww fs env len stream fuel).1 = .mirroredAndForwarded w) ∧
      (∀ w e, writeLoop stream len 0 0 fuel = .errored w e →
        (RWW.Write rww fs env len stream fuel).1 = .writeError w) := by
  constructor
  · intro w hw
    simp [RWW.Write, hclosed, hlen, hw]
  · intro w e he
    simp [RWW.Write, hclosed, hlen, he]

/-- C1 witness: a concrete single write that fully consumes a 1-byte
buffer is mirrored and forwarded. -/
theorem c1_forwarding_requires_full_mirror_witness :
    (({ file := fileA } : RWW).file.closed = false ∧ (1 : Nat) ≠ 0 ∧
        writeLoop (fun _ => (1, none)) 1 0 0 5 = .forwarded 1) ∧
      (RWW.Write { file := fileA } fsOnlyTemp {} 1 (fun _ => (1, none)) 5).1 =
        .mirroredAndForwarded 1 :=
  ⟨by decide,
    (c1_forwarding_requires_full_mirror { file := fileA } fsOnlyTemp {} 1
      (fun _ => (1, none)) 5 rfl (by decide)).1 1 (by decide)⟩

/-! Claim C6 -/

/-- A body-write result stream that never makes progress: every underlying
call consumes nothing and reports io.ErrShortWrite, which is what
`os.File.Write` returns when it consumed fewer bytes than given without
another error. -/
def stuckStream : WStream :=
  fun _ => (0, some .shortWrite)

/-- The write loop is still running after any number of iterations when
started on `stream` with `written` 0: no fuel bound makes it finish. -/
def writeLoopRunsForever (stream : WStream) (len : Nat) : Prop :=
  ∀ fuel idx, writeLoop stream len idx 0 fuel = .diverged

/-- C6 counterexample: the loop does not terminate for every sequence of
underlying write results — on a stream that always consumes nothing and
reports io.ErrShortWrite it retries forever — and a write call that
consumes fewer bytes than given without returning an error is silently
retried rather than treated as a fatal NoProgress condition: after a
(0, nil) result the loop simply calls again and can still succeed. -/
theorem c6_counterexample :
    writeLoopRunsForever stuckStream 1 ∧
      writeLoop (fun i => if i = 0 then (0, none) else (1, none)) 1 0 0 5 = .forwarded 1 := by
  constructor
  · intro fuel
    induction fuel with
    | zero => intro idx; rfl
    | succ n ih =>
      intro idx
      simpa [writeLoop, stuckStream] using ih (idx + 1)
  · decide

/-- Termination of the write loop under the progress condition: when every
underlying result either consumes at least one byte or carries an error
other than io.ErrShortWrite, fuel `len - written` suffices. -/
theorem writeLoop_terminates_of_progress (stream : WStream) (len : Nat)
    (h : ∀ i, 1 ≤ (stream i).1 ∨ (stream i).2 = some .fatal) :
    ∀ fuel idx written, written < len → len - written ≤ fuel →
      writeLoop stream len idx written fuel ≠ .diverged := by
  intro fuel
  induction fuel with
  | zero =>
    intro idx written hw hf
    omega
  | succ n ih =>
    intro idx written hw hf
    rw [writeLoop]
    rcases hc : (stream idx).2 with _ | e
    · have hp : 1 ≤ (stream idx).1 := by
        rcases h idx with hp | hfatal
        · exact hp
        · rw [hc] at hfatal
          cases hfatal
      simp only [hc]
      by_cases hdone : written + min (stream idx).1 (len - written) = len
      · simp [hdone]
      · simp only [hdone, if_false]
        exact ih (idx + 1) (written + min (stream idx).1 (len - written))
          (by omega) (by omega)
    · cases e with
      | fatal =>
        simp [hc]
      | shortWrite =>
        have hp : 1 ≤ (stream idx).1 := by
          rcases h idx with hp | hfatal
          · exact hp
          · rw [hc] at hfatal
            cases hfatal
        simp only [hc]
        by_cases hdone : written + min (stream idx).1 (len - written) = len
        · simp [hdone]
        · simp only [hdone, if_false]
          exact ih (idx + 1) (written + min (stream idx).1 (len - written))
            (by omega) (by omega)

/-- C6 (amended): the write loop retries short writes, including writes
that consume fewer bytes than given without an error, rather than failing
fast with a NoProgress condition; it terminates whenever every underlying
write result either makes progress (consumes at least one byte) or carries
an error other than io.ErrShortWrite, but not for every sequence of
results. -/
theorem c6_progress_termination (stream : WStream) (len : Nat) (hlen : 0 < len)
    (h : ∀ i, 1 ≤ (stream i).1 ∨ (stream i).2 = some .fatal) :
    writeLoop stream len 0 0 len ≠ .diverged :=
  writeLoop_terminates_of_progress stream len h len 0 0 hlen (by omega)

/-- C6 witness: a stream that consumes one byte per call finishes a 2-byte
buffer within fuel 2. -/
theorem c6_progress_termination_witness :
    writeLoop (fun _ => (1, none)) 2 0 0 2 ≠ .diverged :=
  c6_progress_termination (fun _ => (1, none)) 2 (by decide)
    (fun _ => Or.inl (Nat.le_refl 1))

/-! Claim C7 -/

/-- C7 counterexample: when the target already exists as a regular file
and `temp.Stat` fails after the temporary file was allocated,
`NewIncomingFile` returns the error but the temporary file is still
present in the filesystem — it was closed, not removed. -/
theorem c7_counterexample :
    (NewIncomingFile "/r/a.txt" [("/r/a.txt", ⟨FKind.regular, 420⟩)]
        { tempStatOk := false }).1 = .error .statTempFailed ∧
      FS.lookup (NewIncomingFile "/r/a.txt" [("/r/a.txt", ⟨FKind.regular, 420⟩)]
        { tempStatOk := false }).2 (tempNameOf "/r/a.txt") = some ⟨.regular, 384⟩ :=
  ⟨rfl, rfl⟩

/-- C7 (amended): whenever `NewIncomingFile` fails after the temporary
file has been allocated (a stat failure, or a chmod failure when the
permission bits differ from a pre-existing target), the temporary file is
closed but not removed: it is still present in the filesystem when the
error is returned. -/
theorem c7_error_leaves_temp (path : String) (fs : FS) (env : CreateEnv) (st : FNode)
    (hm : env.mkdirOk = true) (hc : env.createTempOk = true)
    (hl : FS.lookup fs path = some st) (hk : st.kind = .regular)
    (hfail : env.tempStatOk = false ∨ (env.tempPerm ≠ st.perm ∧ env.chmodOk = false)) :
    (∃ e, (NewIncomingFile path fs env).1 = .error e) ∧
      FS.lookup (NewIncomingFile path fs env).2 (tempNameOf path) =
        some ⟨.regular, env.tempPerm⟩ := by
  rcases hfail with hts | ⟨hp, hch⟩
  · refine ⟨⟨.statTempFailed, ?_⟩, ?_⟩
    · simp [NewIncomingFile, hm, hc, hl, hk, hts]
    · simp [NewIncomingFile, hm, hc, hl, hk, hts]
      exact FS.lookup_insert_self fs (tempNameOf path) ⟨.regular, env.tempPerm⟩
  · by_cases hts : env.tempStatOk = true
    · refine ⟨⟨.chmodFailed, ?_⟩, ?_⟩
      · simp [NewIncomingFile, hm, hc, hl, hk, hts, hp, hch]
      · simp [NewIncomingFile, hm, hc, hl, hk, hts, hp, hch]
        exact FS.lookup_insert_self fs (tempNameOf path) ⟨.regular, env.tempPerm⟩
    · have hts2 : env.tempStatOk = false := by
        simpa using hts
      refine ⟨⟨.statTempFailed, ?_⟩, ?_⟩
      · simp [NewIncomingFile, hm, hc, hl, hk, hts2]
      · simp [NewIncomingFile, hm, hc, hl, hk, hts2]
        exact FS.lookup_insert_self fs (tempNameOf path) ⟨.regular, env.tempPerm⟩

/-- C7 witness: a concrete chmod failure (existing target with permission
bits 420, temporary file created with 384, chmod refused) leaves the
temporary file behind together with the error. -/
theorem c7_error_leaves_temp_witness :
    (({ chmodOk := false } : CreateEnv).mkdirOk = true ∧
        ({ chmodOk := false } : CreateEnv).createTempOk = true ∧
        FS.lookup [("/r/a.txt", ⟨FKind.regular, 420⟩)] "/r/a.txt" =
          some ⟨FKind.regular, 420⟩ ∧
        (⟨FKind.regular, 420⟩ : FNode).kind = .regular) ∧
      (∃ e, (NewIncomingFile "/r/a.txt" [("/r/a.txt", ⟨FKind.regular, 420⟩)]
          { chmodOk := false }).1 = .error e) ∧
        FS.lookup (NewIncomingFile "/r/a.txt" [("/r/a.txt", ⟨FKind.regular, 420⟩)]
            { chmodOk := false }).2 (tempNameOf "/r/a.txt") =
          some ⟨.regular, ({ chmodOk := false } : CreateEnv).tempPerm⟩ :=
  ⟨by decide,
    c7_error_leaves_temp "/r/a.txt" [("/r/a.txt", ⟨FKind.regular, 420⟩)]
      { chmodOk := false } ⟨FKind.regular, 420⟩ rfl rfl (by decide) rfl
      (Or.inr ⟨by decide, rfl⟩)⟩

/-! Claim C2 -/

/-- Shared concrete wrapper fixture: both files open, 3 bytes expected. -/
def rwwFix : RWW :=
  { file := fileA, etagFile := some etagA, bytesExpected := 3 }

/-- A body write event on an already-closed mirror file passes straight
through, changing nothing. -/
theorem write_closed_passthrough (rww : RWW) (fs : FS) (env : Env) (len : Nat)
    (stream : WStream) (fuel : Nat) (h : rww.file.closed = true) :
    RWW.Write rww fs env len stream fuel = (.forwardedOnly, rww, fs) := by
  simp [RWW.Write, h]

/-- C2: on a body write event that brings the accumulated bytes written
exactly up to the known positive expected byte count (whether the write
loop forwarded or returned an error after consuming those bytes), the
interceptor finalizes: the primary incoming file is Completed (its
temporary file is renamed onto the target) and then, if a sidecar incoming
file is present, it is Completed too; and the finalize path runs at most
once per request — the primary file is closed by the finalize, so every
later body write event takes the pass-through path and changes neither the
wrapper state nor the filesystem. -/
theorem c2_finalize_completes_both (rww : RWW) (fs : FS) (env : Env) (len : Nat)
    (stream : WStream) (fuel : Nat) (w : Nat)
    (hfa : rww.file.aborted = false) (hfd : rww.file.done = false)
    (hfc : rww.file.closed = false)
    (hsync : env.syncOk = true) (hclose : env.closeOk = true)
    (hft : FS.lookup fs rww.file.tempName = some ⟨.regular, 384⟩)
    (hside : ∀ ef, rww.etagFile = some ef →
      ef.aborted = false ∧ ef.done = false ∧ ef.closed = false ∧
        FS.lookup fs ef.tempName = some ⟨.regular, 384⟩ ∧
        ef.tempName ≠ rww.file.tempName ∧ ef.tempName ≠ rww.file.target)
    (hlen : len ≠ 0)
    (hloop : writeLoop stream len 0 0 fuel = .forwarded w ∨
      ∃ e, writeLoop stream len 0 0 fuel = .errored w e)
    (hexp : 0 < rww.bytesExpected)
    (hsum : rww.bytesWritten + (w : Int) = rww.bytesExpected) :
    ((RWW.Write rww fs env len stream fuel).1 = .mirroredAndForwarded w ∨
        (RWW.Write rww fs env len stream fuel).1 = .writeError w) ∧
      (RWW.Write rww fs env len stream fuel).2.1.file.completed = true ∧
      (∀ ef, rww.etagFile = some ef →
        (RWW.Write rww fs env len stream fuel).2.1.etagFile =
          some { ef with closed := true, completed := true }) ∧
      (∀ len2 stream2 fuel2,
        RWW.Write (RWW.Write rww fs env len stream fuel).2.1
            (RWW.Write rww fs env len stream fuel).2.2 env len2 stream2 fuel2 =
          (.forwardedOnly, (RWW.Write rww fs env len stream fuel).2.1,
            (RWW.Write rww fs env len stream fuel).2.2)) := by
  have hpc : rww.file.Complete fs env =
      (none, { rww.file with closed := true, completed := true },
        FS.insert (FS.erase fs rww.file.tempName) rww.file.target ⟨.regular, 384⟩) := by
    simp [IncomingFile.Complete, hfa, hfd, hfc, hsync, hclose, completeRename,
      FS.rename, hft]
  have hfinkey : (finalizeCheck rww fs env w).1.file.completed = true ∧
      (finalizeCheck rww fs env w).1.file.closed = true ∧
      (∀ ef, rww.etagFile = some ef →
        (finalizeCheck rww fs env w).1.etagFile =
          some { ef with closed := true, completed := true }) := by
    cases hopt : rww.etagFile with
    | none =>
      have hfin : finalizeCheck rww fs env w =
          ({ rww with
              bytesWritten := rww.bytesWritten + (w : Int)
              file := { rww.file with closed := true, completed := true } },
            FS.insert (FS.erase fs rww.file.tempName) rww.file.target ⟨.regular, 384⟩) := by
        simp [finalizeCheck, hexp, hsum, hpc, hopt]
      refine ⟨by rw [hfin], by rw [hfin], ?_⟩
      intro ef hh
      cases hh
    | some ef =>
      obtain ⟨hea, hed, hec, het, hne1, hne2⟩ := hside ef hopt
      have hlk : FS.lookup (FS.insert (FS.erase fs rww.file.tempName) rww.file.target
          ⟨FKind.regular, 384⟩) ef.tempName = some ⟨.regular, 384⟩ := by
        rw [FS.lookup_insert_ne _ _ _ _ hne2, FS.lookup_erase_ne _ _ _ hne1]
        exact het
      have hec2 : ef.Complete (FS.insert (FS.erase fs rww.file.tempName) rww.file.target
          ⟨FKind.regular, 384⟩) env =
          (none, { ef with closed := true, completed := true },
            FS.insert (FS.erase (FS.insert (FS.erase fs rww.file.tempName) rww.file.target
              ⟨FKind.regular, 384⟩) ef.tempName) ef.target ⟨.regular, 384⟩) := by
        simp [IncomingFile.Complete, hea, hed, hec, hsync, hclose, completeRename,
          FS.rename, hlk]
      have hfin : finalizeCheck rww fs env w =
          ({ rww with
              bytesWritten := rww.bytesWritten + (w : Int)
              file := { rww.file with closed := true, completed := true }
              etagFile := some { ef with closed := true, completed := true } },
            FS.insert (FS.erase (FS.insert (FS.erase fs rww.file.tempName) rww.file.target
              ⟨FKind.regular, 384⟩) ef.tempName) ef.target ⟨.regular, 384⟩) := by
        simp [finalizeCheck, hexp, hsum, hpc, hopt, hec2]
      refine ⟨by rw [hfin], by rw [hfin], ?_⟩
      intro ef2 hh
      cases hh
      rw [hfin]
  have houtcome : ((RWW.Write rww fs env len stream fuel).1 = .mirroredAndForwarded w ∨
        (RWW.Write rww fs env len stream fuel).1 = .writeError w) ∧
      (RWW.Write rww fs env len stream fuel).2.1 = (finalizeCheck rww fs env w).1 ∧
      (RWW.Write rww fs env len stream fuel).2.2 = (finalizeCheck rww fs env w).2 := by
    rcases hloop with hl | ⟨e, hl⟩
    · refine ⟨Or.inl ?_, ?_, ?_⟩ <;> simp [RWW.Write, hfc, hlen, hl]
    · refine ⟨Or.inr ?_, ?_, ?_⟩ <;> simp [RWW.Write, hfc, hlen, hl]
  refine ⟨houtcome.1, ?_, ?_, ?_⟩
  · rw [houtcome.2.1]
    exact hfinkey.1
  · intro ef hh
    rw [houtcome.2.1]
    exact hfinkey.2.2 ef hh
  · intro len2 stream2 fuel2
    have hcl2 : (RWW.Write rww fs env len stream fuel).2.1.file.closed = true := by
      rw [houtcome.2.1]
      exact hfinkey.2.1
    exact write_closed_passthrough _ _ env len2 stream2 fuel2 hcl2

/-- C2 witness: a concrete 3-byte response, expected length 3, mirrored by
one full write: the primary and the sidecar both complete and a later
concrete write passes through without changing anything. -/
theorem c2_finalize_completes_both_witness :
    (RWW.Write rwwFix fsBoth {} 3 (fun _ => (3, none)) 5).2.1.file.completed = true ∧
      (RWW.Write rwwFix fsBoth {} 3 (fun _ => (3, none)) 5).2.1.etagFile =
        some { etagA with closed := true, completed := true } ∧
      RWW.Write (RWW.Write rwwFix fsBoth {} 3 (fun _ => (3, none)) 5).2.1
          (RWW.Write rwwFix fsBoth {} 3 (fun _ => (3, none)) 5).2.2 {} 4
          (fun _ => (1, none)) 7 =
        (.forwardedOnly, (RWW.Write rwwFix fsBoth {} 3 (fun _ => (3, none)) 5).2.1,
          (RWW.Write rwwFix fsBoth {} 3 (fun _ => (3, none)) 5).2.2) := by
  have h := c2_finalize_completes_both rwwFix fsBoth {} 3 (fun _ => (3, none)) 5 3
    rfl rfl rfl rfl rfl (by decide)
    (fun ef hh => by
      have he : etagA = ef := Option.some.inj hh
      subst he
      exact ⟨rfl, rfl, rfl, by decide, by decide, by decide⟩)
    (by decide) (Or.inl (by decide)) (by decide) (by decide)
  exact ⟨h.2.1, h.2.2.1 etagA rfl, h.2.2.2 4 (fun _ => (1, none)) 7⟩

/-! Claim C8 -/

/-- One request's body write events, applied in order through
`responseWriterWrapper.Write`; each event carries the data length, the
stream of underlying write results, and the loop fuel. -/
def applyWriteEvents (env : Env) (evs : List (Nat × WStream × Nat)) (rww : RWW) (fs : FS) :
    RWW × FS :=
  match evs with
  | [] => (rww, fs)
  | ev :: rest =>
    let r := RWW.Write rww fs env ev.1 ev.2.1 ev.2.2
    applyWriteEvents env rest r.2.1 r.2.2

/-- When the expected byte count is zero, the finalize check only
accumulates the written count. -/
theorem finalizeCheck_no_expected (rww : RWW) (fs : FS) (env : Env) (written : Nat)
    (h : rww.bytesExpected = 0) :
    finalizeCheck rww fs env written =
      ({ rww with bytesWritten := rww.bytesWritten + (written : Int) }, fs) := by
  simp [finalizeCheck, h]

/-- When the expected byte count is zero, a body write event leaves the
incoming files, the expected byte count and the filesystem unchanged. -/
theorem write_no_expected_fix (rww : RWW) (fs : FS) (env : Env) (len : Nat)
    (stream : WStream) (fuel : Nat) (h : rww.bytesExpected = 0) :
    (RWW.Write rww fs env len stream fuel).2.1.file = rww.file ∧
      (RWW.Write rww fs env len stream fuel).2.1.etagFile = rww.etagFile ∧
      (RWW.Write rww fs env len stream fuel).2.1.bytesExpected = 0 ∧
      (RWW.Write rww fs env len stream fuel).2.2 = fs := by
  by_cases hcl : (rww.file.closed || len = 0) = true
  · simp [RWW.Write, hcl, h]
  · rcases hr : writeLoop stream len 0 0 fuel with w | ⟨w, e⟩ | _
    · simp [RWW.Write, hcl, hr, finalizeCheck_no_expected rww fs env w h, h]
    · simp [RWW.Write, hcl, hr, finalizeCheck_no_expected rww fs env w h, h]
    · simp [RWW.Write, hcl, hr, h]

/-- When the expected byte count is zero, a whole sequence of body write
events leaves the incoming files and the filesystem unchanged. -/
theorem applyWriteEvents_no_expected (env : Env) (evs : List (Nat × WStream × Nat))
    (rww : RWW) (fs : FS) (h : rww.bytesExpected = 0) :
    (applyWriteEvents env evs rww fs).1.file = rww.file ∧
      (applyWriteEvents env evs rww fs).2 = fs := by
  induction evs generalizing rww fs with
  | nil => exact ⟨rfl, rfl⟩
  | cons ev rest ih =>
    have hw := write_no_expected_fix rww fs env ev.1 ev.2.1 ev.2.2 h
    have hrec := ih (RWW.Write rww fs env ev.1 ev.2.1 ev.2.2).2.1
      (RWW.Write rww fs env ev.1 ev.2.1 ev.2.2).2.2 hw.2.2.1
    rw [applyWriteEvents]
    exact ⟨by rw [hrec.1, hw.1], by rw [hrec.2, hw.2.2.2]⟩

/-- C8: for a success (200) header whose Content-Length does not parse,
the expected byte count stays zero, so no body write event ever triggers
the finalize path: the primary incoming file is never Completed, the
deferred request-scope Close aborts it, and the target path still has no
file afterwards — no mirror file is ever published. -/
theorem c8_no_publish_without_length (rww : RWW) (fs : FS) (env : Env) (hdr : Header)
    (evs : List (Nat × WStream × Nat))
    (hbe : rww.bytesExpected = 0) (hcl : hdr.contentLength = none)
    (hcomp : rww.file.completed = false) (hdone : rww.file.done = false)
    (htgt : FS.lookup fs rww.file.target = none)
    (hne : rww.file.tempName ≠ rww.file.target) :
    (applyWriteEvents env evs (RWW.WriteHeader rww fs 200 hdr).1
        (RWW.WriteHeader rww fs 200 hdr).2.1).1.file.completed = false ∧
      ((applyWriteEvents env evs (RWW.WriteHeader rww fs 200 hdr).1
          (RWW.WriteHeader rww fs 200 hdr).2.1).1.file.Close
        (applyWriteEvents env evs (RWW.WriteHeader rww fs 200 hdr).1
          (RWW.WriteHeader rww fs 200 hdr).2.1).2).2.1.aborted = true ∧
      FS.lookup ((applyWriteEvents env evs (RWW.WriteHeader rww fs 200 hdr).1
          (RWW.WriteHeader rww fs 200 hdr).2.1).1.file.Close
        (applyWriteEvents env evs (RWW.WriteHeader rww fs 200 hdr).1
          (RWW.WriteHeader rww fs 200 hdr).2.1).2).2.2 rww.file.target = none := by
  have hh : RWW.WriteHeader rww fs 200 hdr = (rww, fs, 200) := by
    simp [RWW.WriteHeader, hcl]
  rw [hh]
  have ha := applyWriteEvents_no_expected env evs rww fs hbe
  rw [ha.1, ha.2]
  have hab : rww.file.Close fs = rww.file.Abort fs := by
    simp [IncomingFile.Close, hcomp]
  rw [hab]
  have habort : (rww.file.Abort fs).2.1.aborted = true := by
    simp [IncomingFile.Abort, hcomp, hdone]
  have hfs : (rww.file.Abort fs).2.2 = FS.erase fs rww.file.tempName := by
    simp [IncomingFile.Abort, hcomp, hdone]
  refine ⟨hcomp, habort, ?_⟩
  rw [hfs, FS.lookup_erase_ne _ _ _ (fun hh2 => hne hh2.symm)]
  exact htgt

/-- C8 witness: a concrete 200 response with an unparseable length, one
body write, then the deferred Close: nothing is published at the target. -/
theorem c8_no_publish_without_length_witness :
    (({ file := fileA } : RWW).bytesExpected = 0 ∧
        (({} : Header)).contentLength = none ∧
        FS.lookup fsOnlyTemp fileA.target = none ∧
        fileA.tempName ≠ fileA.target) ∧
      (applyWriteEvents {} [(1, fun _ => (1, none), 3)]
          (RWW.WriteHeader { file := fileA } fsOnlyTemp 200 {}).1
          (RWW.WriteHeader { file := fileA } fsOnlyTemp 200 {}).2.1).1.file.completed = false ∧
        ((applyWriteEvents {} [(1, fun _ => (1, none), 3)]
            (RWW.WriteHeader { file := fileA } fsOnlyTemp 200 {}).1
            (RWW.WriteHeader { file := fileA } fsOnlyTemp 200 {}).2.1).1.file.Close
          (applyWriteEvents {} [(1, fun _ => (1, none), 3)]
            (RWW.WriteHeader { file := fileA } fsOnlyTemp 200 {}).1
            (RWW.WriteHeader { file := fileA } fsOnlyTemp 200 {}).2.1).2).2.1.aborted = true ∧
        FS.lookup ((applyWriteEvents {} [(1, fun _ => (1, none), 3)]
            (RWW.WriteHeader { file := fileA } fsOnlyTemp 200 {}).1
            (RWW.WriteHeader { file := fileA } fsOnlyTemp 200 {}).2.1).1.file.Close
          (applyWriteEvents {} [(1, fun _ => (1, none), 3)]
            (RWW.WriteHeader { file := fileA } fsOnlyTemp 200 {}).1
            (RWW.WriteHeader { file := fileA } fsOnlyTemp 200 {}).2.1).2).2.2
          fileA.target = none :=
  ⟨⟨rfl, rfl, by decide, by decide⟩,
    c8_no_publish_without_length { file := fileA } fsOnlyTemp {} {}
      [(1, fun _ => (1, none), 3)] rfl rfl rfl rfl (by decide) (by decide)⟩

end CaddyMirror
